import Mathlib

/-!
Shallow embedding of `src/main.py` (Twin_agent): a two-step CrewAI pipeline.
The script builds two agents (a persona "twin" agent and a formal-writer
agent), two tasks, a sequential crew, runs it once, and reports whether the
output file `johnson_reply.md` was produced.

External effects (reading standard input, constructing crewai objects,
`crew.kickoff()`, the filesystem) are modelled by an explicit environment
record `Env`; `main` is a pure function from `Env` to the observable outcome
(console transcript, uncaught exception, constructed descriptors, reported
file length).
-/

namespace TwinAgent

/-- A tool handed to an agent (`crewai_tools`): `FileReadTool(file_path=p)` or
`FileWriterTool()`. -/
inductive Tool where
  | fileReadTool (file_path : String)
  | fileWriterTool
deriving DecidableEq, Repr

/-- The fields of `crewai.Agent` that `src/main.py` sets. -/
structure Agent where
  role : String
  goal : String
  backstory : String
  verbose : Bool
  allow_delegation : Bool
  tools : List Tool
deriving DecidableEq, Repr

/-- The fields of `crewai.Task` that `src/main.py` sets. -/
structure Task where
  description : String
  expected_output : String
  agent : Agent
deriving DecidableEq, Repr

/-- The `crewai.Process` value used (only `sequential` appears in the source). -/
inductive Process where
  | sequential
deriving DecidableEq, Repr

/-- The fields of `crewai.Crew` that `src/main.py` sets. -/
structure Crew where
  agents : List Agent
  tasks : List Task
  process : Process
  verbose : Bool
deriving DecidableEq, Repr

/-- `create_twin_agent()` from `src/main.py` (lines 29-41), transcribed
verbatim, including the whitespace of the Python triple-quoted backstory. -/
def create_twin_agent : Agent :=
  { role := "The little me of myself"
    goal := "Provide short paragraph about the question asked on Johnson behalf given his information"
    backstory := "You are Johnson Wang, a Harvard masters student in Computational Biology and Data Science, \n        with a strong background in mathematics, biochemistry, and computer science. \n        You have hands-on experience with large language models (LoRA, RAG) and multimodal learning (VLM + Adapter for short-video tagging). \n        You are driven to apply AI methods to real-world biomedical and multimodal problems, and you value clear, rigorous, \n        yet approachable communication in your answers."
    verbose := true
    allow_delegation := false
    tools := [Tool.fileReadTool "./information.txt"] }

/-- `create_writer_agent()` from `src/main.py` (lines 44-56). -/
def create_writer_agent : Agent :=
  { role := "Formal Response Writer"
    goal := "Take a draft first-person response and produce a concise, formal, and polished reply suitable for sending"
    backstory := "You are a professional writer who helps Johnson Wang communicate. \n        Make sure the final response sounds polished but still personal, with Johnson's own voice: \n        curious, analytical, but approachable. Keep it clear, avoid excessive jargon, \n        and highlight Johnson's unique AI+biology background when possible."
    verbose := true
    allow_delegation := false
    tools := [Tool.fileWriterTool] }

/-- The part of the research-task f-string that follows the embedded
question (`src/main.py` lines 63-72), transcribed verbatim. -/
def researchInstructionsTail : String :=
  "\n\n        Your task (on behalf of Johnson Wang):\n        1. Read `information.txt` to learn Johnson's background and perspective.\n        2. The answer must explicitly reference Johnson's background (Harvard master's in AI + biology, math/CS training).\n        3. Where relevant, connect to Johnson's projects and experiences.\n        4. Provide a short supporting paragraph (3-4 sentences) that explains the reasoning or details.\n\n        Keep the reply honest, try not to invent ideas that is out of the scope of Johnson's knowledge (PhD level knowledge).\n        "

/-- `create_johnson_response_task(agent, question)` from `src/main.py`
(lines 60-77). The Python f-string embeds `question` after the literal
prefix "Question: ". -/
def create_johnson_response_task (agent : Agent) (question : String) : Task :=
  { description := "Question: " ++ question ++ researchInstructionsTail
    expected_output := "A short structured text containing the the answer to the question\n        "
    agent := agent }

/-- `create_writing_task(agent)` from `src/main.py` (lines 80-97). -/
def create_writing_task (agent : Agent) : Task :=
  { description := "You are given a short draft response (from Johnson's twin agent).\n        \n        1. Convert the draft into a concise, formal, first-person reply (2-4 sentences).\n        2. Preserve the factual content and citations from the draft; do not invent facts.\n        3. Optionally provide a single short formal context paragraph if needed.\n        4. Save the final reply as 'johnson_reply.md' and return a short confirmation."
    expected_output := "A formal first-person reply saved to 'johnson_reply.md' and a short status message."
    agent := agent }

/-- The code points for which Python's `str.isspace()` (and hence the no-argument
`str.strip()`) treats a character as whitespace. -/
def pythonWhitespace : List Nat :=
  [0x09, 0x0a, 0x0b, 0x0c, 0x0d, 0x1c, 0x1d, 0x1e, 0x1f, 0x20, 0x85, 0xa0,
   0x1680, 0x2000, 0x2001, 0x2002, 0x2003, 0x2004, 0x2005, 0x2006, 0x2007,
   0x2008, 0x2009, 0x200a, 0x2028, 0x2029, 0x202f, 0x205f, 0x3000]

/-- Whether Python treats `c` as whitespace. -/
def pyIsSpace (c : Char) : Bool := pythonWhitespace.contains c.toNat

/-- Python's `s.strip()` with no argument: remove leading and trailing
whitespace characters. -/
def pyStrip (s : String) : String :=
  String.mk (((s.data.dropWhile pyIsSpace).reverse.dropWhile pyIsSpace).reverse)

/-- The default question substituted in `main` when the input is blank
(`src/main.py` line 109). -/
def defaultQuestion : String := "Explain my background in 3 sentences"

/-- The separator printed by `main`: `"=" * 50`. -/
def sep : String := String.mk (List.replicate 50 '=')

/-- The external effects of one run of `main`. Each call into the outside
world (standard input, each crewai constructor, `crew.kickoff()`, the
filesystem check afterwards) is represented by its outcome: `Except.error e`
models a raised Python exception whose `str()` is `e`; an `Option String`
exception slot is `some e` when that constructor raises. `replyFile` is the
text content of `johnson_reply.md` after the kickoff (`none` when the file
does not exist); the content is the decoded character sequence the Python
text-mode `read()` returns. -/
structure Env where
  inputR : Except String String
  twinAgentExc : Option String
  writerAgentExc : Option String
  researchTaskExc : Option String
  writingTaskExc : Option String
  crewExc : Option String
  kickoffR : Except String String
  replyFile : Option (List Char)

/-- The observable outcome of one run of `main`: the console transcript (one
entry per `print` call, plus the `input` prompt), the exception that escapes
`main` unhandled (if any), the effective question and the descriptors that
were constructed before any abort, the argument of an explicit `sys.exit`
call (the source never makes one, so it is always `none`), and the length
the success report prints for `johnson_reply.md` (if it got there). -/
structure MainOutcome where
  console : List String
  uncaught : Option String
  effectiveQuestion : Option String
  researchTask : Option Task
  writingTask : Option Task
  crew : Option Crew
  exitCode : Option Nat
  reportedLength : Option Nat

/-- Outcome of a run that aborts with an uncaught exception `e`. -/
def aborted (console : List String) (e : String) (q : Option String)
    (rt wt : Option Task) (c : Option Crew) : MainOutcome :=
  { console := console, uncaught := some e, effectiveQuestion := q,
    researchTask := rt, writingTask := wt, crew := c,
    exitCode := none, reportedLength := none }

/-- `main()` from `src/main.py` (lines 101-160), as a pure function of the
environment. Prints are accumulated in order; the `try` block covers exactly
the kickoff and the result-reporting code (lines 140-160), so exceptions
from `input` or from the constructors escape with `uncaught = some e`. -/
def main (env : Env) : MainOutcome :=
  let console0 : List String :=
    ["🚀 Welcome to Chat use Johnson - a master student at Harvard studying AI and biology",
     sep,
     "Enter a question you'd like Johnson to answer: "]
  match env.inputR with
  | .error e => aborted console0 e none none none none
  | .ok rawQuestion =>
    let blank := (pyStrip rawQuestion).isEmpty
    let question := if blank then defaultQuestion else rawQuestion
    let console1 := console0 ++
      (if blank then ["Using default question: " ++ question] else []) ++
      ["\n📚 Question: " ++ question, sep, "\n🤖 Creating AI agents..."]
    match env.twinAgentExc with
    | some e => aborted console1 e (some question) none none none
    | none =>
      let researcher := create_twin_agent
      match env.writerAgentExc with
      | some e => aborted console1 e (some question) none none none
      | none =>
        let writer := create_writer_agent
        let console2 := console1 ++ ["📋 Setting up tasks..."]
        match env.researchTaskExc with
        | some e => aborted console2 e (some question) none none none
        | none =>
          let research_task := create_johnson_response_task researcher question
          match env.writingTaskExc with
          | some e => aborted console2 e (some question) (some research_task) none none
          | none =>
            let writing_task := create_writing_task writer
            let console3 := console2 ++ ["👥 Assembling the crew..."]
            match env.crewExc with
            | some e =>
                aborted console3 e (some question) (some research_task) (some writing_task) none
            | none =>
              let crew : Crew :=
                { agents := [researcher, writer]
                  tasks := [research_task, writing_task]
                  process := Process.sequential
                  verbose := true }
              let console4 := console3 ++ ["\n🎯 Starting crew execution...", sep]
              match env.kickoffR with
              | .error e =>
                { console := console4 ++
                    ["\n❌ An error occurred: " ++ e,
                     "\n💡 Note: This example requires valid API keys to function properly.",
                     "Please set your OPENAI_API_KEY environment variable."]
                  uncaught := none
                  effectiveQuestion := some question
                  researchTask := some research_task
                  writingTask := some writing_task
                  crew := some crew
                  exitCode := none
                  reportedLength := none }
              | .ok result =>
                let console5 := console4 ++
                  ["\n✅ Crew execution completed!", sep, "📄 Final Result:", result]
                match env.replyFile with
                | some content =>
                  { console := console5 ++
                      ["\n📝 Reply successfully saved to 'johnson_reply.md'",
                       "📊 Reply length: " ++ toString content.length ++ " characters"]
                    uncaught := none
                    effectiveQuestion := some question
                    researchTask := some research_task
                    writingTask := some writing_task
                    crew := some crew
                    exitCode := none
                    reportedLength := some content.length }
                | none =>
                  { console := console5 ++
                      ["\n⚠️  No output file found. The agents may not have used the file tools."]
                    uncaught := none
                    effectiveQuestion := some question
                    researchTask := some research_task
                    writingTask := some writing_task
                    crew := some crew
                    exitCode := none
                    reportedLength := none }

/-- The byte count on disk of a file whose decoded text content is `cs`
(UTF-8 encoding, the default Python uses when writing and reading text). -/
def utf8ByteCount (cs : List Char) : Nat := (cs.map Char.utf8Size).sum

/-- An event in the orchestrator's execution trace. -/
inductive TaskEvent where
  | started (t : Task) (context : String)
  | finished (t : Task) (output : String)
  | failed (t : Task) (msg : String)
deriving DecidableEq, Repr

/-- Modelled from the spec: crewai's `Process.sequential` executor (the
orchestrator invoked by `crew.kickoff()`) is not part of `src/`; per the
spec (sections 4.3 and 5) it executes the tasks of the crew one after the
other in list order, feeds each completed task's output as input context to
the next task, never retries, and aborts the run on the first failure,
which surfaces as a raised error. `exec t ctx` is the (opaque) execution of
one task against its agent given context `ctx`; the function returns the
event trace and the final result. -/
def runSequential (exec : Task → String → Except String String) :
    List Task → String → List TaskEvent × Except String String
  | [], ctx => ([], Except.ok ctx)
  | t :: rest, ctx =>
    match exec t ctx with
    | .error e => ([TaskEvent.started t ctx, TaskEvent.failed t e], Except.error e)
    | .ok out =>
      let next := runSequential exec rest out
      (TaskEvent.started t ctx :: TaskEvent.finished t out :: next.1, next.2)

/-- A concrete environment for C1: a non-blank question, no constructor
raises, the kickoff succeeds and the reply file exists. -/
def envC1 : Env :=
  { inputR := Except.ok "What did you study?"
    twinAgentExc := none, writerAgentExc := none, researchTaskExc := none
    writingTaskExc := none, crewExc := none
    kickoffR := Except.ok "done", replyFile := some "Hello!".data }

/-- A concrete environment for C2: a whitespace-only question. -/
def envC2 : Env :=
  { inputR := Except.ok "   "
    twinAgentExc := none, writerAgentExc := none, researchTaskExc := none
    writingTaskExc := none, crewExc := none
    kickoffR := Except.ok "done", replyFile := some "Hello!".data }

/-- A concrete environment for C3's counterexample: the reply file holds the
single character U+65E5, one character but three UTF-8 bytes. -/
def envC3 : Env :=
  { inputR := Except.ok "What did you study?"
    twinAgentExc := none, writerAgentExc := none, researchTaskExc := none
    writingTaskExc := none, crewExc := none
    kickoffR := Except.ok "done", replyFile := some ['日'] }

/-- A concrete environment for the amended C3: a six-character ASCII reply
file. -/
def envC3w : Env :=
  { inputR := Except.ok "What did you study?"
    twinAgentExc := none, writerAgentExc := none, researchTaskExc := none
    writingTaskExc := none, crewExc := none
    kickoffR := Except.ok "done", replyFile := some "Hello!".data }

/-- A concrete environment for C4: the kickoff succeeds but no reply file
exists afterwards. -/
def envC4 : Env :=
  { inputR := Except.ok "What did you study?"
    twinAgentExc := none, writerAgentExc := none, researchTaskExc := none
    writingTaskExc := none, crewExc := none
    kickoffR := Except.ok "done", replyFile := none }

/-- A concrete environment for C5: the kickoff raises. -/
def envC5 : Env :=
  { inputR := Except.ok "What did you study?"
    twinAgentExc := none, writerAgentExc := none, researchTaskExc := none
    writingTaskExc := none, crewExc := none
    kickoffR := Except.error "Invalid API key", replyFile := none }

/-- A concrete environment for C6: a full successful run. -/
def envC6 : Env :=
  { inputR := Except.ok "What did you study?"
    twinAgentExc := none, writerAgentExc := none, researchTaskExc := none
    writingTaskExc := none, crewExc := none
    kickoffR := Except.ok "done", replyFile := some "Hello!".data }

/-- A concrete environment for C7's counterexample: `input()` raises
(end of file on standard input). -/
def envC7 : Env :=
  { inputR := Except.error "EOF when reading a line"
    twinAgentExc := none, writerAgentExc := none, researchTaskExc := none
    writingTaskExc := none, crewExc := none
    kickoffR := Except.ok "done", replyFile := none }

/-- A concrete environment for the amended C7: the run reaches the kickoff
and the kickoff raises. -/
def envC7w : Env :=
  { inputR := Except.ok "What did you study?"
    twinAgentExc := none, writerAgentExc := none, researchTaskExc := none
    writingTaskExc := none, crewExc := none
    kickoffR := Except.error "Invalid API key", replyFile := none }

/-- A concrete environment for C8: `input()` raises. -/
def envC8a : Env :=
  { inputR := Except.error "EOF when reading a line"
    twinAgentExc := none, writerAgentExc := none, researchTaskExc := none
    writingTaskExc := none, crewExc := none
    kickoffR := Except.ok "done", replyFile := none }

/-- A concrete environment for C8: the `Agent` constructor raises. -/
def envC8b : Env :=
  { inputR := Except.ok "What did you study?"
    twinAgentExc := some "ValidationError", writerAgentExc := none
    researchTaskExc := none, writingTaskExc := none, crewExc := none
    kickoffR := Except.ok "done", replyFile := none }

/-- A concrete environment for C8: the kickoff raises (caught). -/
def envC8c : Env :=
  { inputR := Except.ok "What did you study?"
    twinAgentExc := none, writerAgentExc := none, researchTaskExc := none
    writingTaskExc := none, crewExc := none
    kickoffR := Except.error "Invalid API key", replyFile := none }

/-- A concrete environment for C9: a question with leading and trailing
whitespace around non-whitespace text. -/
def envC9 : Env :=
  { inputR := Except.ok "  What did you study?  "
    twinAgentExc := none, writerAgentExc := none, researchTaskExc := none
    writingTaskExc := none, crewExc := none
    kickoffR := Except.ok "done", replyFile := some "Hello!".data }

/-- A concrete environment for C10: the reply file exists and is empty. -/
def envC10 : Env :=
  { inputR := Except.ok "What did you study?"
    twinAgentExc := none, writerAgentExc := none, researchTaskExc := none
    writingTaskExc := none, crewExc := none
    kickoffR := Except.ok "done", replyFile := some [] }

/-! Theorems about the claims. -/

/-- The question is an infix of the research-task description, for any agent
and any question. -/
lemma question_infix_description (a : Agent) (q : String) :
    q.data <:+: (create_johnson_response_task a q).description.data :=
  ⟨"Question: ".data, researchInstructionsTail.data, by
    simp [create_johnson_response_task, String.data_append]⟩

/-- C1: for every non-blank input question Q, the instructions string of the
research task built by `create_johnson_response_task` and recorded by `main`
contains Q verbatim as a substring (an infix of its character list). -/
theorem research_task_embeds_question (env : Env) (q : String)
    (hin : env.inputR = Except.ok q) (hnb : (pyStrip q).isEmpty = false)
    (h1 : env.twinAgentExc = none) (h2 : env.writerAgentExc = none)
    (h3 : env.researchTaskExc = none) :
    ∃ t : Task, (main env).researchTask = some t ∧
      q.data <:+: t.description.data := by
  obtain ⟨ir, ta, wa, rte, wte, ce, kr, rf⟩ := env
  dsimp only at hin h1 h2 h3
  subst hin h1 h2 h3
  refine ⟨create_johnson_response_task create_twin_agent q, ?_,
    question_infix_description create_twin_agent q⟩
  rcases wte with _ | e4 <;> rcases ce with _ | e5 <;>
    rcases kr with e6 | r <;> rcases rf with _ | content <;>
      simp [main, aborted, hnb]

/-- Witness for C1 at the concrete question "What did you study?". -/
theorem research_task_embeds_question_witness :
    ∃ t : Task, (main envC1).researchTask = some t ∧
      ("What did you study?").data <:+: t.description.data :=
  research_task_embeds_question envC1 "What did you study?" rfl rfl rfl rfl rfl

/-- C2: for every blank or whitespace-only input question, the effective
question equals the fixed default string, `main` prints the substitution
message, and any research task it constructs embeds the default question. -/
theorem blank_input_uses_default (env : Env) (q : String)
    (hin : env.inputR = Except.ok q) (hb : (pyStrip q).isEmpty = true) :
    (main env).effectiveQuestion = some defaultQuestion ∧
    ("Using default question: " ++ defaultQuestion) ∈ (main env).console ∧
    ∀ t : Task, (main env).researchTask = some t →
      t = create_johnson_response_task create_twin_agent defaultQuestion := by
  obtain ⟨ir, ta, wa, rte, wte, ce, kr, rf⟩ := env
  dsimp only at hin
  subst hin
  rcases ta with _ | e1 <;> rcases wa with _ | e2 <;> rcases rte with _ | e3 <;>
    rcases wte with _ | e4 <;> rcases ce with _ | e5 <;>
      rcases kr with e6 | r <;> rcases rf with _ | content <;>
        simp [main, aborted, hb]

/-- Witness for C2 at the concrete whitespace-only input "   ". -/
theorem blank_input_uses_default_witness :
    (main envC2).effectiveQuestion = some defaultQuestion ∧
    ("Using default question: " ++ defaultQuestion) ∈ (main envC2).console ∧
    ∀ t : Task, (main envC2).researchTask = some t →
      t = create_johnson_response_task create_twin_agent defaultQuestion :=
  blank_input_uses_default envC2 "   " rfl rfl

/-- C9: for every non-blank input question, the unstripped string is the
effective question: it is printed to the console as entered and is the
string embedded in the research task `main` constructs. -/
theorem nonblank_question_kept_verbatim (env : Env) (q : String)
    (hin : env.inputR = Except.ok q) (hnb : (pyStrip q).isEmpty = false) :
    (main env).effectiveQuestion = some q ∧
    ("\n📚 Question: " ++ q) ∈ (main env).console ∧
    ∀ t : Task, (main env).researchTask = some t →
      t = create_johnson_response_task create_twin_agent q := by
  obtain ⟨ir, ta, wa, rte, wte, ce, kr, rf⟩ := env
  dsimp only at hin
  subst hin
  rcases ta with _ | e1 <;> rcases wa with _ | e2 <;> rcases rte with _ | e3 <;>
    rcases wte with _ | e4 <;> rcases ce with _ | e5 <;>
      rcases kr with e6 | r <;> rcases rf with _ | content <;>
        simp [main, aborted, hnb]

/-- Witness for C9 at the concrete input "  What did you study?  ", whose
leading and trailing spaces are preserved. -/
theorem nonblank_question_kept_verbatim_witness :
    (main envC9).effectiveQuestion = some "  What did you study?  " ∧
    ("\n📚 Question: " ++ "  What did you study?  ") ∈ (main envC9).console ∧
    ∀ t : Task, (main envC9).researchTask = some t →
      t = create_johnson_response_task create_twin_agent "  What did you study?  " :=
  nonblank_question_kept_verbatim envC9 "  What did you study?  " rfl rfl

/-- C3 counterexample: when `johnson_reply.md` holds the single character
U+65E5, its byte count on disk is 3 but the program reports a length of 1
(`len(content)` of the text-mode read counts characters, not bytes), so the
reported length does not equal the file's actual byte count. -/
theorem reported_length_not_byte_count :
    envC3.replyFile = some ['日'] ∧
    (main envC3).reportedLength = some 1 ∧
    utf8ByteCount ['日'] = 3 ∧
    (main envC3).reportedLength ≠ some (utf8ByteCount ['日']) := by
  refine ⟨rfl, rfl, rfl, ?_⟩
  decide

/-- C3 amended: after a successful run in which `johnson_reply.md` exists,
the length the program reports equals the number of characters of the
file's text content (its decoded length, not its byte count), and it is
positive whenever the file is non-empty. -/
theorem reported_length_eq_char_count (env : Env) (q r : String)
    (content : List Char)
    (hin : env.inputR = Except.ok q)
    (h1 : env.twinAgentExc = none) (h2 : env.writerAgentExc = none)
    (h3 : env.researchTaskExc = none) (h4 : env.writingTaskExc = none)
    (h5 : env.crewExc = none)
    (hk : env.kickoffR = Except.ok r) (hf : env.replyFile = some content) :
    (main env).reportedLength = some content.length ∧
    ("📊 Reply length: " ++ toString content.length ++ " characters")
      ∈ (main env).console ∧
    (content ≠ [] → 0 < content.length) := by
  obtain ⟨ir, ta, wa, rte, wte, ce, kr, rf⟩ := env
  dsimp only at hin h1 h2 h3 h4 h5 hk hf
  subst hin h1 h2 h3 h4 h5 hk hf
  refine ⟨?_, ?_, fun h => List.length_pos.mpr h⟩ <;>
    by_cases hb : (pyStrip q).isEmpty <;> simp [main, aborted, hb]

/-- Witness for the amended C3: the reply file holds "Hello!", six
characters, and the program reports 6. -/
theorem reported_length_eq_char_count_witness :
    (main envC3w).reportedLength = some ("Hello!".data).length ∧
    ("📊 Reply length: " ++ toString ("Hello!".data).length ++ " characters")
      ∈ (main envC3w).console ∧
    ("Hello!".data ≠ [] → 0 < ("Hello!".data).length) :=
  reported_length_eq_char_count envC3w "What did you study?" "done"
    "Hello!".data rfl rfl rfl rfl rfl rfl rfl rfl

/-- C4: whenever the kickoff returns without raising but `johnson_reply.md`
does not exist afterwards, `main` prints the "no output file found" warning
and reports no file length (it never claims success silently without the
artifact). -/
theorem missing_file_warning (env : Env) (q r : String)
    (hin : env.inputR = Except.ok q)
    (h1 : env.twinAgentExc = none) (h2 : env.writerAgentExc = none)
    (h3 : env.researchTaskExc = none) (h4 : env.writingTaskExc = none)
    (h5 : env.crewExc = none)
    (hk : env.kickoffR = Except.ok r) (hf : env.replyFile = none) :
    "\n⚠️  No output file found. The agents may not have used the file tools."
      ∈ (main env).console ∧
    (main env).reportedLength = none := by
  obtain ⟨ir, ta, wa, rte, wte, ce, kr, rf⟩ := env
  dsimp only at hin h1 h2 h3 h4 h5 hk hf
  subst hin h1 h2 h3 h4 h5 hk hf
  by_cases hb : (pyStrip q).isEmpty <;>
    simp [main, aborted, hb]

/-- Witness for C4 at a concrete successful kickoff with no reply file. -/
theorem missing_file_warning_witness :
    "\n⚠️  No output file found. The agents may not have used the file tools."
      ∈ (main envC4).console ∧
    (main envC4).reportedLength = none :=
  missing_file_warning envC4 "What did you study?" "done"
    rfl rfl rfl rfl rfl rfl rfl rfl

/-- C5: every exception `e` raised by the kickoff is caught by the single
top-level handler: `main` prints the diagnostic message and the two static
credential-hint lines, and no exception escapes `main`. -/
theorem kickoff_error_caught (env : Env) (q e : String)
    (hin : env.inputR = Except.ok q)
    (h1 : env.twinAgentExc = none) (h2 : env.writerAgentExc = none)
    (h3 : env.researchTaskExc = none) (h4 : env.writingTaskExc = none)
    (h5 : env.crewExc = none)
    (hk : env.kickoffR = Except.error e) :
    (main env).uncaught = none ∧
    ("\n❌ An error occurred: " ++ e) ∈ (main env).console ∧
    "\n💡 Note: This example requires valid API keys to function properly."
      ∈ (main env).console ∧
    "Please set your OPENAI_API_KEY environment variable."
      ∈ (main env).console := by
  obtain ⟨ir, ta, wa, rte, wte, ce, kr, rf⟩ := env
  dsimp only at hin h1 h2 h3 h4 h5 hk
  subst hin h1 h2 h3 h4 h5 hk
  by_cases hb : (pyStrip q).isEmpty <;>
    simp [main, aborted, hb, sep, defaultQuestion]

/-- Witness for C5 at a concrete kickoff failure "Invalid API key" (as a
missing or unreadable `information.txt` would produce during task 1). -/
theorem kickoff_error_caught_witness :
    (main envC5).uncaught = none ∧
    ("\n❌ An error occurred: " ++ "Invalid API key") ∈ (main envC5).console ∧
    "\n💡 Note: This example requires valid API keys to function properly."
      ∈ (main envC5).console ∧
    "Please set your OPENAI_API_KEY environment variable."
      ∈ (main envC5).console :=
  kickoff_error_caught envC5 "What did you study?" "Invalid API key"
    rfl rfl rfl rfl rfl rfl rfl

/-- C10: when `johnson_reply.md` exists but is empty, `main` still prints
the success message and reports a length of 0: the success report performs
no positivity or content check. -/
theorem empty_file_reported_as_success (env : Env) (q r : String)
    (hin : env.inputR = Except.ok q)
    (h1 : env.twinAgentExc = none) (h2 : env.writerAgentExc = none)
    (h3 : env.researchTaskExc = none) (h4 : env.writingTaskExc = none)
    (h5 : env.crewExc = none)
    (hk : env.kickoffR = Except.ok r) (hf : env.replyFile = some []) :
    "\n📝 Reply successfully saved to 'johnson_reply.md'"
      ∈ (main env).console ∧
    "📊 Reply length: 0 characters" ∈ (main env).console ∧
    (main env).reportedLength = some 0 := by
  obtain ⟨ir, ta, wa, rte, wte, ce, kr, rf⟩ := env
  dsimp only at hin h1 h2 h3 h4 h5 hk hf
  subst hin h1 h2 h3 h4 h5 hk hf
  have hmsg : "📊 Reply length: " ++ toString (0 : Nat) ++ " characters" =
      "📊 Reply length: 0 characters" := rfl
  by_cases hb : (pyStrip q).isEmpty <;>
    simp [main, aborted, hb, hmsg]

/-- Witness for C10 at a concrete run with an empty reply file. -/
theorem empty_file_reported_as_success_witness :
    "\n📝 Reply successfully saved to 'johnson_reply.md'"
      ∈ (main envC10).console ∧
    "📊 Reply length: 0 characters" ∈ (main envC10).console ∧
    (main envC10).reportedLength = some 0 :=
  empty_file_reported_as_success envC10 "What did you study?" "done"
    rfl rfl rfl rfl rfl rfl rfl rfl

/-- C7 counterexample: when `input()` raises (end of file on standard
input), the exception escapes `main` unhandled, so the run does not return
normally — refuting the claim for "every run". -/
theorem input_error_escapes_main :
    (main envC7).uncaught = some "EOF when reading a line" ∧
    (main envC7).uncaught ≠ none := by
  refine ⟨rfl, ?_⟩
  decide

/-- C7 amended: for every run in which reading the question and
constructing the agents, tasks and crew do not raise, the program returns
normally without setting an explicit exit code, regardless of whether the
orchestrator raises an error. -/
theorem returns_normally_after_construction (env : Env) (q : String)
    (hin : env.inputR = Except.ok q)
    (h1 : env.twinAgentExc = none) (h2 : env.writerAgentExc = none)
    (h3 : env.researchTaskExc = none) (h4 : env.writingTaskExc = none)
    (h5 : env.crewExc = none) :
    (main env).uncaught = none ∧ (main env).exitCode = none := by
  obtain ⟨ir, ta, wa, rte, wte, ce, kr, rf⟩ := env
  dsimp only at hin h1 h2 h3 h4 h5
  subst hin h1 h2 h3 h4 h5
  rcases kr with e6 | r <;> rcases rf with _ | content <;>
    by_cases hb : (pyStrip q).isEmpty <;>
      simp [main, aborted, hb]

/-- Witness for the amended C7 at a run whose kickoff raises: `main` still
returns normally with no exit code. -/
theorem returns_normally_after_construction_witness :
    (main envC7w).uncaught = none ∧ (main envC7w).exitCode = none :=
  returns_normally_after_construction envC7w "What did you study?"
    rfl rfl rfl rfl rfl rfl

/-- C8: the try block covers only the kickoff and the result reporting. An
exception raised by `input()`, or by any of the five crewai constructor
calls (the two agents, the two tasks, the crew), escapes `main` unhandled,
while an exception raised by the kickoff is caught. -/
theorem handler_covers_only_kickoff_and_reporting (env : Env) :
    (∀ e, env.inputR = Except.error e → (main env).uncaught = some e) ∧
    (∀ q e, env.inputR = Except.ok q → env.twinAgentExc = some e →
      (main env).uncaught = some e) ∧
    (∀ q e, env.inputR = Except.ok q → env.twinAgentExc = none →
      env.writerAgentExc = some e → (main env).uncaught = some e) ∧
    (∀ q e, env.inputR = Except.ok q → env.twinAgentExc = none →
      env.writerAgentExc = none → env.researchTaskExc = some e →
      (main env).uncaught = some e) ∧
    (∀ q e, env.inputR = Except.ok q → env.twinAgentExc = none →
      env.writerAgentExc = none → env.researchTaskExc = none →
      env.writingTaskExc = some e → (main env).uncaught = some e) ∧
    (∀ q e, env.inputR = Except.ok q → env.twinAgentExc = none →
      env.writerAgentExc = none → env.researchTaskExc = none →
      env.writingTaskExc = none → env.crewExc = some e →
      (main env).uncaught = some e) ∧
    (∀ q e, env.inputR = Except.ok q → env.twinAgentExc = none →
      env.writerAgentExc = none → env.researchTaskExc = none →
      env.writingTaskExc = none → env.crewExc = none →
      env.kickoffR = Except.error e → (main env).uncaught = none) := by
  obtain ⟨ir, ta, wa, rte, wte, ce, kr, rf⟩ := env
  refine ⟨?_, ?_, ?_, ?_, ?_, ?_, ?_⟩ <;>
    (intro q e) <;> intros <;> subst_vars <;> simp [main, aborted]

/-- Witness for C8: an `input()` failure and an `Agent` constructor failure
each escape `main`, while a kickoff failure is caught. -/
theorem handler_covers_only_kickoff_and_reporting_witness :
    (main envC8a).uncaught = some "EOF when reading a line" ∧
    (main envC8b).uncaught = some "ValidationError" ∧
    (main envC8c).uncaught = none :=
  ⟨(handler_covers_only_kickoff_and_reporting envC8a).1
      "EOF when reading a line" rfl,
   (handler_covers_only_kickoff_and_reporting envC8b).2.1
      "What did you study?" "ValidationError" rfl rfl,
   (handler_covers_only_kickoff_and_reporting envC8c).2.2.2.2.2.2
      "What did you study?" "Invalid API key" rfl rfl rfl rfl rfl rfl rfl⟩

/-- C6: the crew `main` assembles uses the sequential process with exactly
the research task first and the writing task second, and under the
sequential orchestrator (`runSequential`, modelled from the spec) its
execution trace is fully determined: the writing task starts only after the
research task finishes, the research task's output is the writing task's
input context, a failure of either task aborts the run with the error
surfacing as the result, and no task is retried or reordered. -/
theorem crew_executes_tasks_sequentially (env : Env) (c : Crew)
    (hc : (main env).crew = some c) :
    c.process = Process.sequential ∧
    (∃ q, c.tasks = [create_johnson_response_task create_twin_agent q,
                     create_writing_task create_writer_agent]) ∧
    (∀ exec : Task → String → Except String String,
      ∀ t1 t2 : Task, c.tasks = [t1, t2] →
      (∀ e, exec t1 "" = Except.error e →
        runSequential exec c.tasks "" =
          ([TaskEvent.started t1 "", TaskEvent.failed t1 e],
           Except.error e)) ∧
      (∀ o1, exec t1 "" = Except.ok o1 →
        (∀ e, exec t2 o1 = Except.error e →
          runSequential exec c.tasks "" =
            ([TaskEvent.started t1 "", TaskEvent.finished t1 o1,
              TaskEvent.started t2 o1, TaskEvent.failed t2 e],
             Except.error e)) ∧
        (∀ o2, exec t2 o1 = Except.ok o2 →
          runSequential exec c.tasks "" =
            ([TaskEvent.started t1 "", TaskEvent.finished t1 o1,
              TaskEvent.started t2 o1, TaskEvent.finished t2 o2],
             Except.ok o2)))) := by
  have htrace : ∀ exec : Task → String → Except String String,
      ∀ t1 t2 : Task, c.tasks = [t1, t2] →
      (∀ e, exec t1 "" = Except.error e →
        runSequential exec c.tasks "" =
          ([TaskEvent.started t1 "", TaskEvent.failed t1 e],
           Except.error e)) ∧
      (∀ o1, exec t1 "" = Except.ok o1 →
        (∀ e, exec t2 o1 = Except.error e →
          runSequential exec c.tasks "" =
            ([TaskEvent.started t1 "", TaskEvent.finished t1 o1,
              TaskEvent.started t2 o1, TaskEvent.failed t2 e],
             Except.error e)) ∧
        (∀ o2, exec t2 o1 = Except.ok o2 →
          runSequential exec c.tasks "" =
            ([TaskEvent.started t1 "", TaskEvent.finished t1 o1,
              TaskEvent.started t2 o1, TaskEvent.finished t2 o2],
             Except.ok o2))) := by
    intro exec t1 t2 ht
    rw [ht]
    refine ⟨fun e h1 => by simp [runSequential, h1],
      fun o1 h1 => ⟨fun e h2 => by simp [runSequential, h1, h2],
        fun o2 h2 => by simp [runSequential, h1, h2]⟩⟩
  obtain ⟨ir, ta, wa, rte, wte, ce, kr, rf⟩ := env
  rcases ir with e0 | q <;> rcases ta with _ | e1 <;> rcases wa with _ | e2 <;>
    rcases rte with _ | e3 <;> rcases wte with _ | e4 <;> rcases ce with _ | e5 <;>
      rcases kr with e6 | r <;> rcases rf with _ | content <;>
        simp only [main, aborted] at hc <;>
          first
            | exact Option.noConfusion hc
            | (injection hc with hceq
               subst hceq
               exact ⟨rfl, ⟨_, rfl⟩, htrace⟩)

/-- Witness for C6: the crew of a concrete full run, with one concrete
executor that succeeds on both tasks. -/
theorem crew_executes_tasks_sequentially_witness :
    (Crew.process
      { agents := [create_twin_agent, create_writer_agent]
        tasks := [create_johnson_response_task create_twin_agent
                    "What did you study?",
                  create_writing_task create_writer_agent]
        process := Process.sequential
        verbose := true }) = Process.sequential ∧
    (∃ q, (Crew.tasks
      { agents := [create_twin_agent, create_writer_agent]
        tasks := [create_johnson_response_task create_twin_agent
                    "What did you study?",
                  create_writing_task create_writer_agent]
        process := Process.sequential
        verbose := true }) =
        [create_johnson_response_task create_twin_agent q,
         create_writing_task create_writer_agent]) ∧
    (∀ exec : Task → String → Except String String,
      ∀ t1 t2 : Task,
      (Crew.tasks
        { agents := [create_twin_agent, create_writer_agent]
          tasks := [create_johnson_response_task create_twin_agent
                      "What did you study?",
                    create_writing_task create_writer_agent]
          process := Process.sequential
          verbose := true }) = [t1, t2] →
      (∀ e, exec t1 "" = Except.error e →
        runSequential exec
          (Crew.tasks
            { agents := [create_twin_agent, create_writer_agent]
              tasks := [create_johnson_response_task create_twin_agent
                          "What did you study?",
                        create_writing_task create_writer_agent]
              process := Process.sequential
              verbose := true }) "" =
          ([TaskEvent.started t1 "", TaskEvent.failed t1 e],
           Except.error e)) ∧
      (∀ o1, exec t1 "" = Except.ok o1 →
        (∀ e, exec t2 o1 = Except.error e →
          runSequential exec
            (Crew.tasks
              { agents := [create_twin_agent, create_writer_agent]
                tasks := [create_johnson_response_task create_twin_agent
                            "What did you study?",
                          create_writing_task create_writer_agent]
                process := Process.sequential
                verbose := true }) "" =
            ([TaskEvent.started t1 "", TaskEvent.finished t1 o1,
              TaskEvent.started t2 o1, TaskEvent.failed t2 e],
             Except.error e)) ∧
        (∀ o2, exec t2 o1 = Except.ok o2 →
          runSequential exec
            (Crew.tasks
              { agents := [create_twin_agent, create_writer_agent]
                tasks := [create_johnson_response_task create_twin_agent
                            "What did you study?",
                          create_writing_task create_writer_agent]
                process := Process.sequential
                verbose := true }) "" =
            ([TaskEvent.started t1 "", TaskEvent.finished t1 o1,
              TaskEvent.started t2 o1, TaskEvent.finished t2 o2],
             Except.ok o2)))) :=
  crew_executes_tasks_sequentially envC6
    { agents := [create_twin_agent, create_writer_agent]
      tasks := [create_johnson_response_task create_twin_agent
                  "What did you study?",
                create_writing_task create_writer_agent]
      process := Process.sequential
      verbose := true }
    rfl

end TwinAgent
